import Mathlib

/-!
Verification development for the `pickles_to_safetensors` repository
(`src/p2s.py`): a converter from PyTorch `.pt` checkpoint files to the
safetensors format.

The embedding models:
- the checkpoint object graph (`Value`) carried by a loaded `.pt` file;
- the checkpoint reader (`parse`), modelled from the spec since the source
  delegates deserialization to the external `torch.load`;
- the two extractors `process_embedding_file` and `process_vae_file`, the
  per-file driver `process_file`, and the batch driver `process_pt_files`
  and `main`, all translated from `src/p2s.py`;
- a small filesystem model (`FS`) so that driver-level behavior (output
  paths, overwriting, batch abort) is statable.

Python exceptions are modelled by `Except` / an explicit error slot;
printed console lines are collected in a `List String`.
-/

/-- Tensor element types, as in the spec data model (section 3). -/
inductive Dtype where
  | float16 | float32 | float64
  | int8 | int16 | int32 | int64
  | bool
  deriving DecidableEq

/-- A tensor reference of the object graph: dtype, shape and opaque payload.
The source never inspects tensor contents (tensors are passed through as
opaque objects); only `.shape` is read, in verbose mode. -/
structure TensorRef where
  dtype : Dtype
  shape : List Nat
  data : List Nat
  deriving DecidableEq

/-- ObjectGraph node: tagged variant over mappings, sequences, scalars and
tensor references, mirroring the spec data model (section 3) and the Python
values a loaded checkpoint contains. -/
inductive Value where
  | none
  | str (s : String)
  | int (n : Int)
  | bool (b : Bool)
  | mapping (entries : List (String × Value))
  | sequence (items : List Value)
  | tensor (t : TensorRef)

/-- Error kinds raised by the modelled pipeline. Python exception classes are
kept where the source raises them (`KeyError`, `ValueError`, ...); the
spec-level reader errors `CorruptCheckpoint` and `UnsupportedConstruct` come
from the modelled parser. -/
inductive PyError where
  | fileNotFoundError (msg : String)
  | isADirectoryError (path : String)
  | keyError (key : String)
  | valueError (msg : String)
  | attributeError (msg : String)
  | typeError (msg : String)
  | corruptCheckpoint (msg : String)
  | unsupportedConstruct (msg : String)
  deriving DecidableEq

/-- Association-list lookup, modelling Python `dict` key lookup
(`d.get(k)` / `k in d`). -/
def aget {α : Type} : List (String × α) → String → Option α
  | [], _ => Option.none
  | (k, v) :: rest, key => if k = key then some v else aget rest key

/-- Association-list insert-or-replace, modelling assignment `d[k] = v` and
file overwriting in the filesystem model. -/
def aset {α : Type} : List (String × α) → String → α → List (String × α)
  | [], key, v => [(key, v)]
  | (k, w) :: rest, key, v =>
      if k = key then (key, v) :: rest else (k, w) :: aset rest key v

/-- Python `x is None` test. -/
def Value.isNone : Value → Bool
  | .none => true
  | _ => false

/-- Python `str(x)` as used in the f-string prints of the source (only ever
reached for scalar metadata values; containers are abbreviated). -/
def pyStr : Value → String
  | .none => "None"
  | .str s => s
  | .int n => toString n
  | .bool b => if b then "True" else "False"
  | .mapping _ => "dict"
  | .sequence _ => "list"
  | .tensor _ => "tensor"

/-- Python attribute access `x.shape`: succeeds only on tensors, raises
`AttributeError` otherwise (in particular on `None`). -/
def pyShape : Value → Except PyError (List Nat)
  | .tensor t => .ok t.shape
  | _ => .error (.attributeError "object has no attribute shape")

/-- Modelled from the spec: opcodes of the tagged binary checkpoint protocol
(section 4.1). The reader itself is absent from `src/` — `src/p2s.py` line 68
delegates deserialization to the external `torch.load` — so the opcode
grammar follows the spec: literal pushes, container builds, the
tensor-reconstruction path, class references (`global`) and a
code-execution request (`reduce`). -/
inductive Op where
  | pushNone
  | pushInt (n : Int)
  | pushStr (s : String)
  | pushBool (b : Bool)
  | buildTensor (dtype : Dtype) (shape : List Nat) (data : List Nat)
  | buildSequence (n : Nat)
  | buildMapping (n : Nat)
  | global (modName clsName : String)
  | reduce
  deriving DecidableEq

/-- Modelled from the spec: the fixed allow-list of class references a real
checkpoint needs — ordered-mapping types, the tensor/storage reconstruction
path, basic containers. Anything else is a hard failure. -/
def allowed_globals : List (String × String) :=
  [("collections", "OrderedDict"),
   ("torch._utils", "_rebuild_tensor_v2"),
   ("torch", "FloatStorage"),
   ("torch", "HalfStorage"),
   ("torch", "DoubleStorage"),
   ("torch", "IntStorage"),
   ("torch", "LongStorage")]

/-- Whether an opcode is a class reference outside the allow-list. -/
def isDisallowedGlobal : Op → Bool
  | .global modName clsName => !(allowed_globals.contains (modName, clsName))
  | _ => false

/-- Pop `n` key/value pairs for a mapping build; keys must be strings.
Returns the entries in pushed order and the remaining stack. -/
def popPairs : Nat → List Value → Option (List (String × Value) × List Value)
  | 0, st => some ([], st)
  | n + 1, v :: .str k :: st =>
      match popPairs n st with
      | some (entries, rest) => some (entries ++ [(k, v)], rest)
      | Option.none => Option.none
  | _ + 1, _ => Option.none

/-- Pop `n` items for a sequence build, in pushed order. -/
def popItems : Nat → List Value → Option (List Value × List Value)
  | 0, st => some ([], st)
  | n + 1, v :: st =>
      match popItems n st with
      | some (items, rest) => some (items ++ [v], rest)
      | Option.none => Option.none
  | _ + 1, [] => Option.none

/-- Modelled from the spec: the stack machine interpreting the opcode stream.
Only the five node kinds are reconstructible; a class reference outside the
allow-list, or a code-execution request, fails with `UnsupportedConstruct`;
a stream that does not fit the grammar fails with `CorruptCheckpoint`.
No opcode has any effect other than building graph nodes: the machine has no
execution capability. -/
def parseOps : List Op → List Value → Except PyError Value
  | [], [v] => .ok v
  | [], _ => .error (.corruptCheckpoint "ill-formed stream")
  | .pushNone :: rest, st => parseOps rest (.none :: st)
  | .pushInt n :: rest, st => parseOps rest (.int n :: st)
  | .pushStr s :: rest, st => parseOps rest (.str s :: st)
  | .pushBool b :: rest, st => parseOps rest (.bool b :: st)
  | .buildTensor d sh bytes :: rest, st =>
      parseOps rest (.tensor ⟨d, sh, bytes⟩ :: st)
  | .buildSequence n :: rest, st =>
      match popItems n st with
      | some (items, st2) => parseOps rest (.sequence items :: st2)
      | Option.none => .error (.corruptCheckpoint "ill-formed stream")
  | .buildMapping n :: rest, st =>
      match popPairs n st with
      | some (entries, st2) => parseOps rest (.mapping entries :: st2)
      | Option.none => .error (.corruptCheckpoint "ill-formed stream")
  | .global modName clsName :: rest, st =>
      if allowed_globals.contains (modName, clsName) then parseOps rest st
      else .error (.unsupportedConstruct "disallowed global reference")
  | .reduce :: _, _ => .error (.unsupportedConstruct "code execution request")

/-- Modelled from the spec: `parse(bytes) -> ObjectGraph` (section 4.1).
Any global reference outside the allow-list is rejected up front with
`UnsupportedConstruct` — "any other global reference lookup is a hard
failure" — before any reconstruction happens. -/
def parse (ops : List Op) : Except PyError Value :=
  if ops.any isDisallowedGlobal then
    .error (.unsupportedConstruct "disallowed global reference")
  else parseOps ops []

/-- Step metadata of the autoencoder extractor, from `src/p2s.py` line 135:
`step = model.get('step', model.get('global_step'))`. Python evaluates the
default eagerly, so a present `step` key wins even when its value is `None`. -/
def vae_step (m : List (String × Value)) : Value :=
  match aget m "step" with
  | some v => v
  | Option.none =>
      match aget m "global_step" with
      | some v => v
      | Option.none => Value.none

/-- Embedding extractor, from `src/p2s.py` lines 86-116
(`process_embedding_file`). Returns the printed lines and either the
safetensors-ready mapping or the raised exception. Note the source never
checks field presence: `model.get('string_to_param', {}).get('*')` yields
`None` when fields are absent, and only the verbose `.shape` access can
raise. -/
def process_embedding_file (model : Value) (verbose : Bool) :
    List String × Except PyError Value :=
  match model with
  | .mapping m =>
    match (aget m "string_to_param").getD (.mapping []) with
    | .mapping sm =>
      let model_tensors := (aget sm "*").getD .none
      let s_model := Value.mapping [("emb_params", model_tensors)]
      if verbose then
        let p1 :=
          match aget m "sd_checkpoint_name" with
          | some v =>
              if v.isNone then ["Checkpoint name not found in the model."]
              else [s!"Trained on {pyStr v}."]
          | Option.none => ["Checkpoint name not found in the model."]
        let p2 :=
          match aget m "step" with
          | some v =>
              if v.isNone then ["Step not found in the model."]
              else [s!"Trained for {pyStr v} steps."]
          | Option.none => ["Step not found in the model."]
        match pyShape model_tensors with
        | .ok sh =>
            (p1 ++ p2 ++ [s!"Dimensions of embedding tensor: {toString sh}", ""],
             .ok s_model)
        | .error e => (p1 ++ p2, .error e)
      else ([], .ok s_model)
    | _ => ([], .error (.attributeError "object has no attribute get"))
  | _ => ([], .error (.attributeError "object has no attribute get"))

/-- Autoencoder (VAE) extractor, from `src/p2s.py` lines 119-142
(`process_vae_file`). `model["state_dict"]` raises `KeyError` when absent;
whatever value is present is returned unchanged, with no per-entry
validation. -/
def process_vae_file (model : Value) (verbose : Bool) :
    List String × Except PyError Value :=
  match model with
  | .mapping m =>
    match aget m "state_dict" with
    | some s_model =>
        if verbose then
          let step := vae_step m
          if step.isNone then
            (["Step not found in the model.", ""], .ok s_model)
          else
            ([s!"Trained for {pyStr step} steps.", ""], .ok s_model)
        else ([], .ok s_model)
    | Option.none => ([], .error (.keyError "state_dict"))
  | _ => ([], .error (.typeError "model is not subscriptable"))

/-- A filesystem entry: a `.pt` file holding an opcode stream (what
`torch.load` would deserialize) or a directory holding entry names. -/
inductive FSNode where
  | file (ops : List Op)
  | dir (entries : List String)

/-- Filesystem model for the driver: the input tree (read-only during a run)
and the safetensors files written so far (path to saved tensor mapping). -/
structure FS where
  nodes : List (String × FSNode)
  outputs : List (String × Value)

/-- Python `os.path.exists`. -/
def FS.pathExists (fs : FS) (p : String) : Bool :=
  (aget fs.nodes p).isSome

/-- Python `os.path.isdir`. -/
def FS.isdir (fs : FS) (p : String) : Bool :=
  match aget fs.nodes p with
  | some (.dir _) => true
  | _ => false

/-- Python `os.path.isfile`. -/
def FS.isfile (fs : FS) (p : String) : Bool :=
  match aget fs.nodes p with
  | some (.file _) => true
  | _ => false

/-- Python `os.listdir`: the immediate entry names of a directory. -/
def FS.listdir (fs : FS) (p : String) : List String :=
  match aget fs.nodes p with
  | some (.dir es) => es
  | _ => []

/-- Python `os.path.join(path, name)`. -/
def joinPath (d n : String) : String := d ++ "/" ++ n

/-- Python `s.endswith(suf)`, as a computable character-list comparison. -/
def pyEndsWith (s suf : String) : Bool :=
  s.data.reverse.take suf.data.length == suf.data.reverse

/-- The external `safetensors.torch.save_file`, modelled as an unconditional
write: the output path is created or silently overwritten, with no
existence check. -/
def save_file (fs : FS) (v : Value) (path : String) : FS :=
  ⟨fs.nodes, aset fs.outputs path v⟩

/-- `torch.load(file_path, map_location=device)` at `src/p2s.py` line 68:
reads the file at the path and deserializes its byte stream. The
deserializer itself is the spec-modelled `parse`; a missing path or a
directory raises the corresponding `OSError` subclass. -/
def torch_load (fs : FS) (p : String) : Except PyError Value :=
  match aget fs.nodes p with
  | some (.file ops) => parse ops
  | some (.dir _) => .error (.isADirectoryError p)
  | Option.none => .error (.fileNotFoundError p)

/-- Variant dispatch of `process_file`, from `src/p2s.py` lines 73-78:
`embedding` and `vae` select their extractor; any other tag raises
`ValueError` without entering either branch. -/
def variantBranch (model_type : String) (model : Value) (verbose : Bool) :
    List String × Except PyError Value :=
  if model_type = "embedding" then process_embedding_file model verbose
  else if model_type = "vae" then process_vae_file model verbose
  else ([], .error (.valueError s!"model_type `{model_type}` is not supported!"))

/-- Per-file driver, from `src/p2s.py` lines 55-83 (`process_file`). Returns
the filesystem after the call (mutated only by the final `save_file`), the
printed lines, and `some e` when an exception propagates out. The output
path replaces the last three characters of the input path
(`file_path[:-3] + '.safetensors'`). -/
def process_file (fs : FS) (file_path model_type : String) (verbose : Bool) :
    FS × List String × Option PyError :=
  match torch_load fs file_path with
  | .error e => (fs, [], some e)
  | .ok model =>
    let printed0 := if verbose then [s!"Processing file: {file_path}"] else []
    match variantBranch model_type model verbose with
    | (p, .error e) => (fs, printed0 ++ p, some e)
    | (p, .ok s_model) =>
      let new_file_path := String.dropRight file_path 3 ++ ".safetensors"
      let fs2 := save_file fs s_model new_file_path
      (fs2, printed0 ++ p ++ [s!"Saved converted file: {new_file_path}"], Option.none)

/-- The directory loop of `process_pt_files` (`src/p2s.py` lines 45-47):
`for file_name in os.listdir(path): if file_name.endswith('.pt'):
process_file(...)`. There is no `try` inside the loop, so an exception from
one file aborts the loop and propagates; entries not ending in `.pt` are
skipped with no diagnostic. -/
def processDirLoop (fs : FS) (dirPath : String) (names : List String)
    (model_type : String) (verbose : Bool) : FS × List String × Option PyError :=
  match names with
  | [] => (fs, [], Option.none)
  | n :: rest =>
    if pyEndsWith n ".pt" then
      match process_file fs (joinPath dirPath n) model_type verbose with
      | (fs2, out, some e) => (fs2, out, some e)
      | (fs2, out, Option.none) =>
        match processDirLoop fs2 dirPath rest model_type verbose with
        | (fs3, out2, err) => (fs3, out ++ out2, err)
    else processDirLoop fs dirPath rest model_type verbose

/-- Batch driver, from `src/p2s.py` lines 28-52 (`process_pt_files`):
missing path raises `FileNotFoundError`; a directory is looped over; a `.pt`
file is processed directly; anything else only prints a message. -/
def process_pt_files (fs : FS) (path model_type : String) (verbose : Bool) :
    FS × List String × Option PyError :=
  if fs.pathExists path then
    if fs.isdir path then
      processDirLoop fs path (fs.listdir path) model_type verbose
    else if fs.isfile path && pyEndsWith path ".pt" then
      process_file fs path model_type verbose
    else
      (fs, [s!"{path} is not a valid directory or .pt file."], Option.none)
  else
    (fs, [], some (.fileNotFoundError s!"The specified path does not exist: {path}"))

/-- Python `str(e)` for the modelled exceptions, as printed by `main`.
`KeyError` stringifies to the quoted key. -/
def errMessage : PyError → String
  | .fileNotFoundError msg => msg
  | .isADirectoryError p => s!"[Errno 21] Is a directory: {p}"
  | .keyError k => s!"\x27{k}\x27"
  | .valueError msg => msg
  | .attributeError msg => msg
  | .typeError msg => msg
  | .corruptCheckpoint msg => msg
  | .unsupportedConstruct msg => msg

/-- The `main` conversion run, from `src/p2s.py` lines 156-159: the whole
batch sits in one `try`, and any exception is caught there and reported with
a single generic message. -/
def main_run (fs : FS) (path model_type : String) (verbose : Bool) :
    FS × List String :=
  match process_pt_files fs path model_type verbose with
  | (fs2, out, some e) => (fs2, out ++ [s!"An error occurred: {errMessage e}"])
  | (fs2, out, Option.none) => (fs2, out)

/-! ### Shared helper lemmas and concrete fixtures -/

/-- Insert-or-replace followed by lookup at the same key yields the new
value, whatever was there before. -/
theorem aget_aset_self {α : Type} (l : List (String × α)) (k : String) (v : α) :
    aget (aset l k v) k = some v := by
  induction l with
  | nil => simp [aset, aget]
  | cons hd tl ih =>
      obtain ⟨k1, v1⟩ := hd
      by_cases hk : k1 = k <;> simp [aset, aget, hk, ih]

/-- A true `isdir` exposes the directory node. -/
theorem isdir_aget (fs : FS) (p : String) (h : fs.isdir p = true) :
    ∃ es, aget fs.nodes p = some (.dir es) := by
  unfold FS.isdir at h
  rcases hA : aget fs.nodes p with _ | node
  · rw [hA] at h
    simp at h
  · cases node with
    | file ops =>
        rw [hA] at h
        simp at h
    | dir es => exact ⟨es, rfl⟩

/-- Opcode stream referencing a class outside the allow-list (the classic
arbitrary-code-execution payload of this serialization family). -/
def evilOps : List Op := [.global "os" "system"]

/-- Opcode stream of a well-formed autoencoder checkpoint:
builds a root mapping with a one-entry `state_dict`. -/
def goodVaeOps : List Op :=
  [.pushStr "state_dict", .pushStr "w",
   .buildTensor .float32 [2] [0, 0, 0, 0, 0, 0, 0, 0],
   .buildMapping 1, .buildMapping 1]

/-- Opcode stream of a well-formed embedding checkpoint:
builds a root mapping with `string_to_param` containing key `*`. -/
def goodEmbOps : List Op :=
  [.pushStr "string_to_param", .pushStr "*",
   .buildTensor .float32 [3, 4] [],
   .buildMapping 1, .buildMapping 1]

/-- Concrete directory fixture: the first entry fails to load, the second is
a well-formed checkpoint. -/
def c2fs : FS :=
  ⟨[("d", .dir ["a.pt", "b.pt"]),
    ("d/a.pt", .file evilOps),
    ("d/b.pt", .file goodVaeOps)], []⟩

example : parse goodVaeOps
    = .ok (.mapping [("state_dict",
        .mapping [("w", .tensor ⟨.float32, [2], [0,0,0,0,0,0,0,0]⟩)])]) := rfl

example : parse goodEmbOps
    = .ok (.mapping [("string_to_param",
        .mapping [("*", .tensor ⟨.float32, [3,4], []⟩)])]) := rfl

example : parse evilOps
    = .error (.unsupportedConstruct "disallowed global reference") := rfl

/-! ### Claims -/

/-- C1: for every input byte stream that references a class/global outside
the allow-list, parsing fails with `UnsupportedConstruct` (the modelled
reader has no execution capability, so no embedded code can run), and a
`process_file` call on such a file produces no side effect: the filesystem
is returned unchanged, so no partial output file is written. -/
theorem c1_disallowed_global_rejected (ops : List Op)
    (h : ops.any isDisallowedGlobal = true) :
    parse ops = .error (.unsupportedConstruct "disallowed global reference") ∧
    ∀ (fs : FS) (p mt : String) (vb : Bool),
      aget fs.nodes p = some (.file ops) →
      process_file fs p mt vb
        = (fs, [], some (.unsupportedConstruct "disallowed global reference")) := by
  have hp : parse ops
      = .error (.unsupportedConstruct "disallowed global reference") := by
    simp [parse, h]
  refine ⟨hp, ?_⟩
  intro fs p mt vb hl
  simp [process_file, torch_load, hl, hp]

/-- C1 witness: the concrete payload `GLOBAL os system` is rejected with
`UnsupportedConstruct` and leaves the filesystem untouched. -/
theorem c1_disallowed_global_rejected_witness :
    evilOps.any isDisallowedGlobal = true ∧
    parse evilOps = .error (.unsupportedConstruct "disallowed global reference") ∧
    process_file ⟨[("m.pt", FSNode.file evilOps)], []⟩ "m.pt" "embedding" false
      = (⟨[("m.pt", FSNode.file evilOps)], []⟩, [],
         some (.unsupportedConstruct "disallowed global reference")) :=
  ⟨rfl, (c1_disallowed_global_rejected evilOps rfl).1,
   (c1_disallowed_global_rejected evilOps rfl).2
     ⟨[("m.pt", FSNode.file evilOps)], []⟩ "m.pt" "embedding" false rfl⟩

/-- C2 counterexample: in the concrete directory `d` with entries `a.pt`
(fails to load) and `b.pt` (well-formed, convertible on its own), the batch
run converts nothing at all: the failure on `a.pt` propagates out of the
loop and `b.pt` is never processed, refuting per-file recovery. -/
theorem c2_batch_abort_counterexample :
    (process_file c2fs "d/b.pt" "vae" false).2.2 = Option.none ∧
    (process_pt_files c2fs "d" "vae" false).2.2
      = some (.unsupportedConstruct "disallowed global reference") ∧
    (process_pt_files c2fs "d" "vae" false).1.outputs = [] :=
  ⟨rfl, rfl, rfl⟩

/-- C2 amended: a failure converting one file aborts the batch — the
exception propagates out of the directory loop, the remaining entries are
not processed, and the error is reported only once, at the whole-batch
boundary in `main`, with the generic message `An error occurred: ...`
(the per-file path is not part of the report). -/
theorem c2_error_aborts_batch (fs : FS) (d n : String) (rest : List String)
    (mt : String) (vb : Bool) (e : PyError)
    (hd : aget fs.nodes d = some (.dir (n :: rest)))
    (hn : pyEndsWith n ".pt" = true)
    (he : (process_file fs (joinPath d n) mt vb).2.2 = some e) :
    process_pt_files fs d mt vb
      = ((process_file fs (joinPath d n) mt vb).1,
         (process_file fs (joinPath d n) mt vb).2.1, some e) ∧
    main_run fs d mt vb
      = ((process_file fs (joinPath d n) mt vb).1,
         (process_file fs (joinPath d n) mt vb).2.1
           ++ [s!"An error occurred: {errMessage e}"]) := by
  rcases hPF : process_file fs (joinPath d n) mt vb with ⟨fs1, out1, err1⟩
  rw [hPF] at he
  simp only at he
  subst he
  have hloop : process_pt_files fs d mt vb = (fs1, out1, some e) := by
    simp [process_pt_files, FS.pathExists, FS.isdir, FS.listdir, hd,
      processDirLoop, hn, hPF]
  refine ⟨by simp [hloop], ?_⟩
  simp [main_run, hloop]

/-- C2 amended witness: in the concrete two-entry directory, the batch run
collapses to the result of the single failing file, and `main` reports the
generic message. -/
theorem c2_error_aborts_batch_witness :
    process_pt_files c2fs "d" "vae" false
      = ((process_file c2fs (joinPath "d" "a.pt") "vae" false).1,
         (process_file c2fs (joinPath "d" "a.pt") "vae" false).2.1,
         some (.unsupportedConstruct "disallowed global reference")) ∧
    main_run c2fs "d" "vae" false
      = ((process_file c2fs (joinPath "d" "a.pt") "vae" false).1,
         (process_file c2fs (joinPath "d" "a.pt") "vae" false).2.1
           ++ ["An error occurred: disallowed global reference"]) :=
  c2_error_aborts_batch c2fs "d" "a.pt" ["b.pt"] "vae" false
    (.unsupportedConstruct "disallowed global reference") rfl rfl rfl

/-- C3 counterexample: an embedding-variant checkpoint without
`string_to_param` does not make extraction fail — it succeeds and returns
`{emb_params: None}`, so no `MissingField`-style error is raised. -/
theorem c3_embedding_missing_field_counterexample :
    (process_embedding_file (.mapping []) false).2
      = .ok (.mapping [("emb_params", Value.none)]) := rfl

/-- C3 amended: only the autoencoder variant fails on its missing root field
(`model["state_dict"]` raises `KeyError`); the embedding variant without
`string_to_param` does not fail at extraction but returns a mapping whose
single `emb_params` entry is `None`, deferring any failure to the later
save or verbose-print step. -/
theorem c3_missing_field_behavior (m : List (String × Value)) (vb : Bool)
    (hsd : aget m "state_dict" = Option.none)
    (hstp : aget m "string_to_param" = Option.none) :
    (process_vae_file (.mapping m) vb).2 = .error (.keyError "state_dict") ∧
    (process_embedding_file (.mapping m) false).2
      = .ok (.mapping [("emb_params", Value.none)]) := by
  constructor
  · simp [process_vae_file, hsd]
  · simp [process_embedding_file, hstp, aget]

/-- C3 amended witness: the empty checkpoint mapping lacks both fields; the
vae extractor raises `KeyError` and the embedding extractor succeeds. -/
theorem c3_missing_field_behavior_witness :
    (process_vae_file (.mapping []) true).2 = .error (.keyError "state_dict") ∧
    (process_embedding_file (.mapping []) false).2
      = .ok (.mapping [("emb_params", Value.none)]) :=
  c3_missing_field_behavior [] true rfl rfl

/-- C4: for every embedding-variant checkpoint whose `string_to_param`
mapping has an entry at `*`, extraction yields exactly one tensor entry,
named `emb_params`, holding that very tensor (hence dtype, shape and data
unchanged). -/
theorem c4_embedding_extraction (m sm : List (String × Value)) (tr : TensorRef)
    (vb : Bool)
    (h1 : aget m "string_to_param" = some (.mapping sm))
    (h2 : aget sm "*" = some (.tensor tr)) :
    (process_embedding_file (.mapping m) vb).2
      = .ok (.mapping [("emb_params", .tensor tr)]) := by
  cases vb <;> simp [process_embedding_file, h1, h2, pyShape]

/-- C4 witness: the spec's synthetic example — `string_to_param.*` a 3×4
float32 tensor, `step` 500 — extracts to exactly
`{emb_params: Tensor(float32, [3,4])}`. -/
theorem c4_embedding_extraction_witness :
    (process_embedding_file
      (.mapping [("string_to_param",
          .mapping [("*", .tensor ⟨.float32, [3, 4], []⟩)]),
        ("step", .int 500)]) true).2
      = .ok (.mapping [("emb_params", .tensor ⟨.float32, [3, 4], []⟩)]) :=
  c4_embedding_extraction _ _ ⟨.float32, [3, 4], []⟩ true rfl rfl

/-- C5: for every autoencoder-variant checkpoint containing `state_dict`,
extraction returns that very object — every entry emitted unchanged, none
added, dropped or renamed. -/
theorem c5_vae_extraction (m : List (String × Value)) (sd : Value) (vb : Bool)
    (h : aget m "state_dict" = some sd) :
    (process_vae_file (.mapping m) vb).2 = .ok sd := by
  cases vb
  · simp [process_vae_file, h]
  · simp [process_vae_file, h]
    split <;> rfl

/-- C5 witness: the spec's synthetic example — a two-entry `state_dict` with
`global_step` 12 and no `step` — extracts to exactly those two entries. -/
theorem c5_vae_extraction_witness :
    (process_vae_file
      (.mapping [("state_dict",
          .mapping [("encoder.weight", .tensor ⟨.float32, [2, 2], []⟩),
            ("decoder.bias", .tensor ⟨.float32, [2], []⟩)]),
        ("global_step", .int 12)]) true).2
      = .ok (.mapping [("encoder.weight", .tensor ⟨.float32, [2, 2], []⟩),
          ("decoder.bias", .tensor ⟨.float32, [2], []⟩)]) :=
  c5_vae_extraction _ _ true rfl

/-- C6: the autoencoder step metadata is the value at `step` when that key
is present (whatever `global_step` holds), else the value at `global_step`
when present, else `None` — first-present-wins on key presence. -/
theorem c6_step_first_present_wins (m : List (String × Value)) :
    (∀ v, aget m "step" = some v → vae_step m = v) ∧
    (aget m "step" = Option.none →
      ∀ v, aget m "global_step" = some v → vae_step m = v) ∧
    (aget m "step" = Option.none → aget m "global_step" = Option.none →
      vae_step m = Value.none) := by
  refine ⟨?_, ?_, ?_⟩ <;> intros <;> simp [vae_step, *]

/-- C6 witness: with both keys present, `step` wins; the spec's
autoencoder example (`global_step` only) yields 12. -/
theorem c6_step_first_present_wins_witness :
    vae_step [("step", Value.int 500), ("global_step", Value.int 12)]
      = Value.int 500 ∧
    vae_step [("state_dict", Value.mapping []), ("global_step", Value.int 12)]
      = Value.int 12 :=
  ⟨(c6_step_first_present_wins _).1 _ rfl,
   (c6_step_first_present_wins
     [("state_dict", Value.mapping []), ("global_step", Value.int 12)]).2.1
     rfl _ rfl⟩

/-- C7 counterexample: a `state_dict` whose entry `w` is the plain integer 3
(not a tensor) is extracted without any error — no `InvalidTensorEntry`-style
failure occurs. -/
theorem c7_no_entry_validation_counterexample :
    (process_vae_file
      (.mapping [("state_dict", .mapping [("w", Value.int 3)])]) false).2
      = .ok (.mapping [("w", Value.int 3)]) := rfl

/-- C7 amended: the autoencoder extractor performs no per-entry validation —
a `state_dict` containing a non-tensor value is returned unchanged, with any
failure deferred to the external archive writer. -/
theorem c7_entries_passed_through (m sd : List (String × Value)) (k : String)
    (v : Value) (vb : Bool)
    (h : aget m "state_dict" = some (.mapping sd))
    (_h2 : aget sd k = some v)
    (_h3 : ∀ tr, v ≠ .tensor tr) :
    (process_vae_file (.mapping m) vb).2 = .ok (.mapping sd) := by
  cases vb
  · simp [process_vae_file, h]
  · simp [process_vae_file, h]
    split <;> rfl

/-- C7 amended witness: the integer-valued entry passes through extraction
unchanged. -/
theorem c7_entries_passed_through_witness :
    (process_vae_file
      (.mapping [("state_dict", .mapping [("w", Value.int 3)])]) true).2
      = .ok (.mapping [("w", Value.int 3)]) :=
  c7_entries_passed_through _ _ "w" (Value.int 3) true rfl rfl
    (fun _ h => Value.noConfusion h)

/-- C8: with a loadable file and a variant tag other than `embedding` or
`vae`, `process_file` raises `ValueError` with neither extractor run: the
result carries no extractor output, no file is written (the filesystem is
returned unchanged), and the only print is the verbose progress line. -/
theorem c8_unsupported_variant (fs : FS) (p mt : String) (vb : Bool)
    (model : Value) (hload : torch_load fs p = .ok model)
    (h1 : mt ≠ "embedding") (h2 : mt ≠ "vae") :
    process_file fs p mt vb
      = (fs, (if vb then [s!"Processing file: {p}"] else []),
         some (.valueError s!"model_type `{mt}` is not supported!")) := by
  simp [process_file, variantBranch, hload, h1, h2]

/-- C8 witness: the tag `model` is rejected on a concrete loadable file. -/
theorem c8_unsupported_variant_witness :
    process_file ⟨[("a.pt", FSNode.file [Op.pushNone])], []⟩ "a.pt" "model" false
      = (⟨[("a.pt", FSNode.file [Op.pushNone])], []⟩, [],
         some (.valueError "model_type `model` is not supported!")) :=
  c8_unsupported_variant ⟨[("a.pt", FSNode.file [Op.pushNone])], []⟩
    "a.pt" "model" false Value.none rfl (by decide) (by decide)

/-- C9: every successful `process_file` run writes exactly one output, at
the input path with its final three characters replaced by `.safetensors`;
the write is an insert-or-replace on the output map with no prior existence
check, so an existing file at that path is silently overwritten; the input
tree is untouched. -/
theorem c9_output_path_overwrite (fs : FS) (p mt : String) (vb : Bool)
    (h : (process_file fs p mt vb).2.2 = Option.none) :
    ∃ v, (process_file fs p mt vb).1.nodes = fs.nodes ∧
      (process_file fs p mt vb).1.outputs
        = aset fs.outputs (String.dropRight p 3 ++ ".safetensors") v ∧
      aget (process_file fs p mt vb).1.outputs
        (String.dropRight p 3 ++ ".safetensors") = some v := by
  rcases hL : torch_load fs p with e | model
  · have hpf : process_file fs p mt vb = (fs, [], some e) := by
      simp [process_file, hL]
    rw [hpf] at h
    simp at h
  · rcases hB : variantBranch mt model vb with ⟨pr, res⟩
    rcases res with e | s_model
    · have hpf : (process_file fs p mt vb).2.2 = some e := by
        simp [process_file, hL, hB]
      rw [hpf] at h
      simp at h
    · refine ⟨s_model, ?_, ?_, ?_⟩ <;>
        simp [process_file, hL, hB, save_file, aget_aset_self]

/-- Fixture for the C9 witness: a loadable embedding checkpoint plus a
pre-existing file at the derived output path. -/
def fs9 : FS := ⟨[("e.pt", .file goodEmbOps)], [("e.safetensors", Value.none)]⟩

/-- C9 witness: converting `e.pt` succeeds and the pre-existing
`e.safetensors` entry is replaced by the new tensor mapping. -/
theorem c9_output_path_overwrite_witness :
    (process_file fs9 "e.pt" "embedding" false).2.2 = Option.none ∧
    ∃ v, (process_file fs9 "e.pt" "embedding" false).1.nodes = fs9.nodes ∧
      (process_file fs9 "e.pt" "embedding" false).1.outputs
        = aset fs9.outputs (String.dropRight "e.pt" 3 ++ ".safetensors") v ∧
      aget (process_file fs9 "e.pt" "embedding" false).1.outputs
        (String.dropRight "e.pt" 3 ++ ".safetensors") = some v :=
  ⟨rfl, c9_output_path_overwrite fs9 "e.pt" "embedding" false rfl⟩

/-- C10: directory processing touches exactly the immediate entries whose
names end in `.pt` — the loop's outcome is unchanged when the other entries
are removed, so they are skipped with no print, no write and no error — a
directory is handled by looping over its immediate listing only (no
recursion into subdirectories); and an existing path that is neither a
directory nor a `.pt` file produces only the printed message and raises
nothing. -/
theorem c10_directory_filtering :
    (∀ (fs : FS) (d mt : String) (vb : Bool) (names : List String),
      processDirLoop fs d names mt vb
        = processDirLoop fs d (names.filter (fun n => pyEndsWith n ".pt")) mt vb) ∧
    (∀ (fs : FS) (p mt : String) (vb : Bool),
      fs.isdir p = true →
      process_pt_files fs p mt vb = processDirLoop fs p (fs.listdir p) mt vb) ∧
    (∀ (fs : FS) (p mt : String) (vb : Bool),
      fs.pathExists p = true → fs.isdir p = false →
      (fs.isfile p && pyEndsWith p ".pt") = false →
      process_pt_files fs p mt vb
        = (fs, [s!"{p} is not a valid directory or .pt file."], Option.none)) := by
  refine ⟨?_, ?_, ?_⟩
  · intro fs d mt vb names
    induction names generalizing fs with
    | nil => rfl
    | cons n rest ih =>
      by_cases hn : pyEndsWith n ".pt" = true
      · simp only [processDirLoop, List.filter_cons, hn, if_true]
        rcases process_file fs (joinPath d n) mt vb with ⟨fs2, out, err⟩
        cases err
        · simp only [processDirLoop, List.filter_cons, hn, if_true]
          rw [ih fs2]
        · rfl
      · simp only [processDirLoop, List.filter_cons, hn, if_false]
        exact ih fs
  · intro fs p mt vb h
    obtain ⟨es, hA⟩ := isdir_aget fs p h
    simp [process_pt_files, FS.pathExists, hA, h]
  · intro fs p mt vb hex hdir hfile
    simp [process_pt_files, hex, hdir, hfile]

/-- Fixture for the C10 witness: an existing file that is not a `.pt` file. -/
def fs10 : FS := ⟨[("f.txt", .file [])], []⟩

/-- C10 witness: a mixed entry list is equivalent to its `.pt`-only
filtering, the concrete directory is processed via its immediate listing,
and a non-`.pt` file only prints the message. -/
theorem c10_directory_filtering_witness :
    processDirLoop c2fs "d" ["a.pt", "x.txt"] "vae" false
      = processDirLoop c2fs "d"
          (["a.pt", "x.txt"].filter (fun n => pyEndsWith n ".pt")) "vae" false ∧
    process_pt_files c2fs "d" "vae" false
      = processDirLoop c2fs "d" (c2fs.listdir "d") "vae" false ∧
    process_pt_files fs10 "f.txt" "vae" false
      = (fs10, ["f.txt is not a valid directory or .pt file."], Option.none) :=
  ⟨c10_directory_filtering.1 c2fs "d" "vae" false ["a.pt", "x.txt"],
   c10_directory_filtering.2.1 c2fs "d" "vae" false rfl,
   c10_directory_filtering.2.2 fs10 "f.txt" "vae" false rfl rfl rfl⟩
